import Mathlib

/-!
A verification development for the small validated arithmetic functions of
this repository: the two-argument `add` function
(content/blog/2020-12-13-python-testing-unittest/code/v2-add.py) and the
one-argument `square` function exercised by
content/blog/2020-12-06-python-testing-unittest/v2/test_square.py.

Python values are shallowly embedded as `PyVal`; Python floating-point
values are modelled as exact rationals (the spec verifies float results
only to a tolerance).  A Python `TypeError` becomes the `error`
branch of an `Except PyError` result.
-/

/-- A Python value, restricted to the kinds exercised by the functions and
their test suites: integers, floats (modelled as rationals), booleans,
strings, lists (sequences) and dicts (mappings). -/
inductive PyVal where
  | int : Int → PyVal
  | float : Rat → PyVal
  | bool : Bool → PyVal
  | str : String → PyVal
  | list : List PyVal → PyVal
  | dict : List (PyVal × PyVal) → PyVal
deriving Repr

/-- The single error kind of this component: Python's `TypeError`, the
spec's `TypeKind`. -/
inductive PyError where
  | typeError : String → PyError
deriving Repr, DecidableEq

/-- Embedding of the guard `isinstance(x, (int, float))` from v2-add.py.
In Python, `bool` is a subclass of `int`, so boolean values pass this
check. -/
def isNumeric : PyVal → Bool
  | .int _ => true
  | .float _ => true
  | .bool _ => true
  | _ => false

/-- The integer value of an int-kind (or bool-kind) Python value. -/
def intVal : PyVal → Int
  | .int n => n
  | .bool b => if b then 1 else 0
  | _ => 0

/-- The rational value of a numeric Python value. -/
def numVal : PyVal → Rat
  | .int n => (n : Rat)
  | .float q => q
  | .bool b => if b then 1 else 0
  | _ => 0

/-- Is this value of float kind? Determines the kind of an arithmetic
result under Python's numeric promotion. -/
def isFloatKind : PyVal → Bool
  | .float _ => true
  | _ => false

/-- Python's `a + b` on numeric operands: the result is a float when
either operand is a float, and an int otherwise (bools count as ints). -/
def pyNumAdd (a b : PyVal) : PyVal :=
  if isFloatKind a || isFloatKind b then .float (numVal a + numVal b)
  else .int (intVal a + intVal b)

/-- Python's `x * x` on a numeric operand, with the same kind promotion
as `pyNumAdd`. -/
def pyNumSquare (x : PyVal) : PyVal :=
  if isFloatKind x then .float (numVal x * numVal x)
  else .int (intVal x * intVal x)

/-- Embedding of `add` from v2-add.py: validate both arguments with the
`isinstance` guard, raising `TypeError` when either fails, and otherwise
return `a + b`. -/
def add (a b : PyVal) : Except PyError PyVal :=
  if !(isNumeric a) || !(isNumeric b) then
    Except.error (.typeError
      "The inputs to the `add` function must be numbers (int or float)!")
  else
    Except.ok (pyNumAdd a b)

/-- Modelled from the spec: the repository holds only the test suite
test_square.py for `square`; square.py itself is not under the sources.
Per the spec's contract (section 4.2), `square` accepts one value `x`,
returns `x` multiplied by itself when `x` is of a numeric kind, and fails
with the single `TypeKind` error otherwise, with the same numeric-kind
guard as `add`. -/
def square (x : PyVal) : Except PyError PyVal :=
  if !(isNumeric x) then
    Except.error (.typeError
      "The input to the `square` function must be a number (int or float)!")
  else
    Except.ok (pyNumSquare x)

/-- One invocation of this component: a call of `add` or of `square`. -/
inductive Call where
  | addCall : PyVal → PyVal → Call
  | squareCall : PyVal → Call

/-- Run one call. -/
def runCall : Call → Except PyError PyVal
  | .addCall a b => add a b
  | .squareCall x => square x

/-- Run a sequence of calls, collecting each call's result in order. -/
def runCalls (cs : List Call) : List (Except PyError PyVal) :=
  cs.map runCall

/-- On a numeric value that is not of float kind, the rational value is the
cast of the integer value. -/
theorem intVal_cast (v : PyVal) (hf : isFloatKind v = false) :
    ((intVal v : Int) : Rat) = numVal v := by
  cases v with
  | bool b => cases b <;> simp [intVal, numVal]
  | float q => simp [isFloatKind] at hf
  | _ => simp [intVal, numVal]

/-- The numeric value of a promoted sum is the sum of the numeric values. -/
theorem numVal_pyNumAdd (a b : PyVal) :
    numVal (pyNumAdd a b) = numVal a + numVal b := by
  by_cases ha : isFloatKind a = true
  · simp [pyNumAdd, ha, numVal]
  · by_cases hb : isFloatKind b = true
    · simp [pyNumAdd, hb, numVal]
    · rw [Bool.not_eq_true] at ha hb
      have hint : pyNumAdd a b = .int (intVal a + intVal b) := by
        simp [pyNumAdd, ha, hb]
      rw [hint]
      show ((intVal a + intVal b : Int) : Rat) = numVal a + numVal b
      push_cast
      rw [intVal_cast a ha, intVal_cast b hb]

/-- The numeric value of a promoted square is the square of the numeric
value. -/
theorem numVal_pyNumSquare (x : PyVal) :
    numVal (pyNumSquare x) = numVal x * numVal x := by
  by_cases hx : isFloatKind x = true
  · simp [pyNumSquare, hx, numVal]
  · rw [Bool.not_eq_true] at hx
    have hint : pyNumSquare x = .int (intVal x * intVal x) := by
      simp [pyNumSquare, hx]
    rw [hint]
    show ((intVal x * intVal x : Int) : Rat) = numVal x * numVal x
    push_cast
    rw [intVal_cast x hx]

/-- The promoted sum is symmetric in its operands. -/
theorem pyNumAdd_comm (a b : PyVal) : pyNumAdd a b = pyNumAdd b a := by
  unfold pyNumAdd
  rw [Bool.or_comm, add_comm (numVal a) (numVal b), add_comm (intVal a) (intVal b)]

/-- C1: for every pair of numeric inputs (integer or floating-point),
`add` succeeds and returns their arithmetic sum; for integer pairs the
result is exactly the integer sum. -/
theorem add_numeric_returns_sum (a b : PyVal)
    (ha : isNumeric a = true) (hb : isNumeric b = true) :
    (∃ r, add a b = Except.ok r ∧ numVal r = numVal a + numVal b) ∧
    (∀ m n : Int, add (.int m) (.int n) = Except.ok (.int (m + n))) := by
  constructor
  · refine ⟨pyNumAdd a b, ?_, numVal_pyNumAdd a b⟩
    simp [add, ha, hb]
  · intro m n
    rfl

/-- Witness for C1 at the concrete integer pair (1, 2). -/
theorem add_numeric_returns_sum_witness :
    (∃ r, add (.int 1) (.int 2) = Except.ok r ∧
      numVal r = numVal (.int 1) + numVal (.int 2)) ∧
    (∀ m n : Int, add (.int m) (.int n) = Except.ok (.int (m + n))) :=
  add_numeric_returns_sum (.int 1) (.int 2) rfl rfl

/-- C2: when at least one argument is not of a numeric kind, `add` fails
immediately with exactly the `TypeKind` error raised at the validation
guard: the error is the entire result (no partial computation, no side
effect, no wrapping or translation). -/
theorem add_nonnumeric_signals_typeerror (a b : PyVal)
    (h : isNumeric a = false ∨ isNumeric b = false) :
    add a b = Except.error (.typeError
      "The inputs to the `add` function must be numbers (int or float)!") := by
  rcases h with h | h <;> simp [add, h]

/-- Witness for C2 at the concrete pair ("1", 2) from the test suite. -/
theorem add_nonnumeric_signals_typeerror_witness :
    add (.str "1") (.int 2) = Except.error (.typeError
      "The inputs to the `add` function must be numbers (int or float)!") :=
  add_nonnumeric_signals_typeerror (.str "1") (.int 2) (Or.inl rfl)

/-- C3: the validation guard of `add` accepts exactly the numeric kinds:
`add` succeeds iff both arguments pass the numeric-kind check, every
integer (including negative values and zero) and floating-point value
passes it, and every string (numeric-looking or not), sequence and
mapping fails it, with no implicit coercion. -/
theorem add_validation_accepts_exactly_numeric :
    (∀ a b : PyVal, (∃ v, add a b = Except.ok v) ↔
      (isNumeric a = true ∧ isNumeric b = true)) ∧
    (∀ n : Int, isNumeric (.int n) = true) ∧
    (∀ q : Rat, isNumeric (.float q) = true) ∧
    (∀ s : String, isNumeric (.str s) = false) ∧
    (∀ xs : List PyVal, isNumeric (.list xs) = false) ∧
    (∀ d : List (PyVal × PyVal), isNumeric (.dict d) = false) := by
  refine ⟨?_, fun _ => rfl, fun _ => rfl, fun _ => rfl, fun _ => rfl, fun _ => rfl⟩
  intro a b
  constructor
  · rintro ⟨v, hv⟩
    by_cases ha : isNumeric a = true
    · by_cases hb : isNumeric b = true
      · exact ⟨ha, hb⟩
      · rw [Bool.not_eq_true] at hb
        simp [add, hb] at hv
    · rw [Bool.not_eq_true] at ha
      simp [add, ha] at hv
  · rintro ⟨ha, hb⟩
    exact ⟨pyNumAdd a b, by simp [add, ha, hb]⟩

/-- C4: for every numeric input (integer or floating-point, including
negative numbers), `square` succeeds and returns the input multiplied by
itself, exactly for integers; in particular square(1) = 1, square(0) = 0,
square(-2) = 4 and square(1.5) = 2.25. -/
theorem square_numeric_returns_product (x : PyVal)
    (hx : isNumeric x = true) :
    (∃ r, square x = Except.ok r ∧ numVal r = numVal x * numVal x) ∧
    (∀ n : Int, square (.int n) = Except.ok (.int (n * n))) ∧
    square (.int 1) = Except.ok (.int 1) ∧
    square (.int 0) = Except.ok (.int 0) ∧
    square (.int (-2)) = Except.ok (.int 4) ∧
    square (.float (3/2)) = Except.ok (.float (9/4)) := by
  refine ⟨⟨pyNumSquare x, ?_, numVal_pyNumSquare x⟩, fun n => rfl, rfl, rfl, rfl, ?_⟩
  · simp [square, hx]
  · simp [square, isNumeric, pyNumSquare, isFloatKind, numVal]
    norm_num

/-- Witness for C4 at the concrete input -2. -/
theorem square_numeric_returns_product_witness :
    (∃ r, square (.int (-2)) = Except.ok r ∧
      numVal r = numVal (.int (-2)) * numVal (.int (-2))) ∧
    (∀ n : Int, square (.int n) = Except.ok (.int (n * n))) ∧
    square (.int 1) = Except.ok (.int 1) ∧
    square (.int 0) = Except.ok (.int 0) ∧
    square (.int (-2)) = Except.ok (.int 4) ∧
    square (.float (3/2)) = Except.ok (.float (9/4)) :=
  square_numeric_returns_product (.int (-2)) rfl

/-- C5: `square` fails with the `TypeKind` error on every non-numeric
input: every string (in particular a numeric string), every sequence and
every mapping. -/
theorem square_nonnumeric_signals_typeerror :
    (∀ s : String, square (.str s) = Except.error (.typeError
      "The input to the `square` function must be a number (int or float)!")) ∧
    (∀ xs : List PyVal, square (.list xs) = Except.error (.typeError
      "The input to the `square` function must be a number (int or float)!")) ∧
    (∀ d : List (PyVal × PyVal), square (.dict d) = Except.error (.typeError
      "The input to the `square` function must be a number (int or float)!")) :=
  ⟨fun _ => rfl, fun _ => rfl, fun _ => rfl⟩

/-- C6: `add` and `square` are pure and deterministic: in any sequence of
invocations, each call's result is exactly `runCall` of that call alone,
unaffected by the calls before or after it, and two calls with identical
inputs yield identical outputs. -/
theorem add_square_pure_order_independent :
    (∀ (pre post : List Call) (c : Call),
      runCalls (pre ++ c :: post) = runCalls pre ++ runCall c :: runCalls post) ∧
    (∀ c : Call, runCalls [c, c] = [runCall c, runCall c]) ∧
    (∀ a b : PyVal, add a b = add a b) ∧
    (∀ x : PyVal, square x = square x) :=
  ⟨fun pre post c => by simp [runCalls], fun c => rfl,
    fun _ _ => rfl, fun _ => rfl⟩

/-- C7: summing two floating-point values with `add` is within the test
suite's tolerance of the true sum: add(0.1, 0.2) is within 10⁻⁷ of 0.3
and add(-0.2, 0.2) is within 10⁻⁷ of 0. -/
theorem add_float_within_tolerance :
    (∃ q : Rat, add (.float (1/10)) (.float (2/10)) = Except.ok (.float q) ∧
      |q - 3/10| < 1/10^7) ∧
    (∃ q : Rat, add (.float (-2/10)) (.float (2/10)) = Except.ok (.float q) ∧
      |q - 0| < 1/10^7) := by
  constructor
  · refine ⟨3/10, ?_, by norm_num⟩
    simp [add, isNumeric, pyNumAdd, isFloatKind, numVal]
    norm_num
  · refine ⟨0, ?_, by norm_num⟩
    simp [add, isNumeric, pyNumAdd, isFloatKind, numVal]
    norm_num

/-- C8: `add` accepts boolean inputs: the numeric-kind guard treats a
boolean as an integer, so for every boolean and every numeric second
argument the call succeeds with the arithmetic sum (True counting as 1 and
False as 0); in particular add(True, 2) = 3. -/
theorem add_accepts_booleans (b : Bool) (v : PyVal)
    (hv : isNumeric v = true) :
    (∃ r, add (.bool b) v = Except.ok r ∧
      numVal r = (if b then 1 else 0) + numVal v) ∧
    add (.bool true) (.int 2) = Except.ok (.int 3) := by
  refine ⟨⟨pyNumAdd (.bool b) v, ?_, ?_⟩, rfl⟩
  · have hb : isNumeric (.bool b) = true := rfl
    simp [add, hb, hv]
  · rw [numVal_pyNumAdd]
    rfl

/-- Witness for C8 at the concrete pair (True, 2). -/
theorem add_accepts_booleans_witness :
    (∃ r, add (.bool true) (.int 2) = Except.ok r ∧
      numVal r = (if true then 1 else 0) + numVal (.int 2)) ∧
    add (.bool true) (.int 2) = Except.ok (.int 3) :=
  add_accepts_booleans true (.int 2) rfl

/-- C9: `add` is commutative: swapping the arguments changes neither a
successful sum nor the raising of the `TypeKind` error. -/
theorem add_commutative (a b : PyVal) : add a b = add b a := by
  unfold add
  rw [Bool.or_comm, pyNumAdd_comm]

/-- C10: `add` preserves integrality: an integer pair yields an integer
result, and whenever either numeric argument is of float kind the result
is of float kind. -/
theorem add_preserves_integrality :
    (∀ m n : Int, add (.int m) (.int n) = Except.ok (.int (m + n))) ∧
    (∀ a b : PyVal, isNumeric a = true → isNumeric b = true →
      (isFloatKind a = true ∨ isFloatKind b = true) →
      ∃ q : Rat, add a b = Except.ok (.float q)) := by
  refine ⟨fun m n => rfl, fun a b ha hb hf => ?_⟩
  refine ⟨numVal a + numVal b, ?_⟩
  have hor : (isFloatKind a || isFloatKind b) = true := by
    rcases hf with hf | hf <;> simp [hf]
  simp [add, ha, hb, pyNumAdd, hor]

/-- Witness for C10: integer pair (2, 3) yields the integer 5, and the
float-int pair (0.5, 1) yields a float. -/
theorem add_preserves_integrality_witness :
    add (.int 2) (.int 3) = Except.ok (.int 5) ∧
    ∃ q : Rat, add (.float (1/2)) (.int 1) = Except.ok (.float q) :=
  ⟨add_preserves_integrality.1 2 3,
    add_preserves_integrality.2 (.float (1/2)) (.int 1) rfl rfl (Or.inl rfl)⟩
